import Mathlib

/-!
Shallow embedding of the FPL-Datawarehouse ETL jobs.

Each Python job is translated to executable Lean definitions:
- JSON payloads become records with `Option` fields (a `none` models a JSON
  null or an absent key),
- pandas DataFrames become lists of row records,
- `raise` becomes `Except.error` with an error kind from the spec's taxonomy,
- database side effects become explicit traces of `DbAction`s, with booleans
  injecting success/failure of the underlying store calls.
-/

deriving instance DecidableEq for Except

namespace FPL

/-- Error taxonomy of spec section 7, mapped from the `ValueError` /
`RequestException` messages the scripts raise. -/
inductive Err where
  | configError
  | requestError
  | dataError
  | schemaError
  | loadError
deriving DecidableEq

/-! ## Stats job (04_FPL_raw_stats.py) data model -/

/-- One entry of a per-side statistic block: `{"element": ..., "value": ...}`. -/
structure StatEntry where
  element : Option Int
  value : Option Int
deriving DecidableEq

/-- One element of a fixture's `stats` list: an identifier plus the away (`a`)
and home (`h`) entry lists. -/
structure StatBlock where
  identifier : String
  a : List StatEntry
  h : List StatEntry
deriving DecidableEq

/-- A fixture object as consumed by `extract_stats`: the `.get` accesses with
default `None` are modelled by `Option` fields. -/
structure Fixture where
  code : Option Int
  id : Option Int
  finished : Option Bool
  stats : List StatBlock
deriving DecidableEq

/-- The two team sides iterated by `for team_type in ['a', 'h']`. -/
inductive Side where
  | a
  | h
deriving DecidableEq

/-- Lookup `stat.get(team_type, [])`, looking up the side's entry list. -/
def StatBlock.side (b : StatBlock) : Side → List StatEntry
  | Side.a => b.a
  | Side.h => b.h

/-- A row appended by `extract_stats` (no `stat_type` column yet). -/
structure RawRow where
  game_code : Option Int
  finished : Option Bool
  game_id : Option Int
  stat_value : Option Int
  player_id : Option Int
  team_type : Side
deriving DecidableEq

/-- A row of the final stats table, after `join_dataframes` added the
`stat_type` column. -/
structure StatRow extends RawRow where
  stat_type : String
deriving DecidableEq

/-- The module-level `stats_list` catalogue. -/
def stats_list : List String :=
  ["goals_scored", "own_goals", "yellow_cards", "red_cards", "assists",
   "penalties_saved", "penalties_missed", "saves", "bonus", "bps"]

/-- The dict literal appended inside the innermost loop of `extract_stats`. -/
def mkRawRow (f : Fixture) (e : StatEntry) (t : Side) : RawRow :=
  { game_code := f.code
    finished := f.finished
    game_id := f.id
    stat_value := e.value
    player_id := e.element
    team_type := t }

/-- Innermost loop of `extract_stats`: `for entry in stat.get(team_type, [])`,
appending one row per entry. -/
def entryLoop (f : Fixture) (t : Side) (es : List StatEntry) (acc : List RawRow) :
    List RawRow :=
  es.foldl (fun a e => a ++ [mkRawRow f e t]) acc

/-- The `for team_type in ['a', 'h']` loop of `extract_stats`. -/
def sideLoop (f : Fixture) (st : StatBlock) (acc : List RawRow) : List RawRow :=
  [Side.a, Side.h].foldl (fun a t => entryLoop f t (st.side t) a) acc

/-- The `for stat in stats` loop of `extract_stats`, guarded by
`if stat.get("identifier") == identifier`. -/
def statLoop (ident : String) (f : Fixture) (acc : List RawRow) : List RawRow :=
  f.stats.foldl (fun a st => if st.identifier = ident then sideLoop f st a else a) acc

/-- The `for fixture in data` loop of `extract_stats`, starting from the empty
`extracted_details` accumulator. -/
def extractLoop (ident : String) (data : List Fixture) : List RawRow :=
  data.foldl (fun a f => statLoop ident f a) []

/-- Function `extract_stats(data, identifier)`: raises on an empty fixture list, else
returns the accumulated rows. -/
def extract_stats (data : List Fixture) (identifier : String) :
    Except Err (List RawRow) :=
  if data = [] then Except.error Err.dataError
  else Except.ok (extractLoop identifier data)

/-- Assignment `df['stat_type'] = stat`: tag a raw row with its statistic name. -/
def addStatType (s : String) (r : RawRow) : StatRow :=
  { toRawRow := r, stat_type := s }

/-- The `for stat in stats_list` loop of `join_dataframes`: per-statistic
extraction, skipping empty frames, then concatenation in catalogue order. -/
def joinLoop (d : List Fixture) : List String → Except Err (List StatRow)
  | [] => Except.ok []
  | s :: rest =>
    match extract_stats d s with
    | Except.error e => Except.error e
    | Except.ok df =>
      match joinLoop d rest with
      | Except.error e => Except.error e
      | Except.ok tail =>
        if df = [] then Except.ok tail
        else Except.ok (df.map (addStatType s) ++ tail)

/-- Function `join_dataframes(data)`: raises when `data is None or len(data) == 0`,
else concatenates the tagged per-statistic extractions (an empty `df_list`
yields an explicitly empty frame). -/
def join_dataframes (data : Option (List Fixture)) : Except Err (List StatRow) :=
  match data with
  | none => Except.error Err.dataError
  | some d =>
      if d = [] then Except.error Err.dataError
      else joinLoop d stats_list

/-- Rows contributed by one statistic block of one fixture: both sides in
source order, one row per entry. -/
def blockRows (f : Fixture) (b : StatBlock) : List RawRow :=
  [Side.a, Side.h].flatMap fun t => (b.side t).map fun e => mkRawRow f e t

/-- Rows contributed by one fixture for one statistic name: every block whose
identifier matches. -/
def fixtureStatRows (ident : String) (f : Fixture) : List RawRow :=
  (f.stats.filter fun b => b.identifier = ident).flatMap (blockRows f)

/-- Spec-side description of the stats table (spec sections 4.3 and 8): one row
per (catalogue statistic, fixture, matching block, side, entry) combination
present in the source, carrying the fixture's code/id/finished flag, the side,
the statistic name, the player identifier and the numeric value. -/
def specStatRows (data : List Fixture) : List StatRow :=
  stats_list.flatMap fun s =>
    data.flatMap fun f =>
      (f.stats.filter fun b => b.identifier = s).flatMap fun b =>
        [Side.a, Side.h].flatMap fun t =>
          (b.side t).map fun e =>
            { game_code := f.code
              finished := f.finished
              game_id := f.id
              stat_value := e.value
              player_id := e.element
              team_type := t
              stat_type := s }

/-! ## Loaders: connection configuration and database action traces -/

/-- The five PostgreSQL environment variables read by every bronze loader. -/
structure PgConfig where
  dbname : Option String
  user : Option String
  password : Option String
  host : Option String
  port : Option String
deriving DecidableEq

/-- The five MySQL environment variables read by `load_data_to_mysql`. -/
structure MyConfig where
  ghost : Option String
  gport : Option String
  gdbname : Option String
  guser : Option String
  gpassword : Option String
deriving DecidableEq

/-- Python truthiness of an `os.getenv` result: `None` and the empty string
are falsy inside `all([...])`. -/
def present : Option String → Bool
  | none => false
  | some s => !(s = "")

/-- The check `all([dbname, user, password, host, port])`. -/
def pgComplete (c : PgConfig) : Bool :=
  present c.dbname && present c.user && present c.password
    && present c.host && present c.port

/-- The check `all([ghost, gport, gdbname, guser, gpassword])`. -/
def myComplete (c : MyConfig) : Bool :=
  present c.ghost && present c.gport && present c.gdbname
    && present c.guser && present c.gpassword

/-- Observable database-side effects of a loader invocation. -/
inductive DbAction where
  | createEngine
  | truncateTable (table : String)
  | writeTable (table : String)
  | disposeEngine
deriving DecidableEq

/-- Function `upload_to_postgres` of 04_FPL_raw_stats.py: credential check, then the
empty-frame skip, then write inside try/finally with `engine.dispose()` on
both outcomes. `writeOk` injects success or failure of `df.to_sql`. -/
def upload_to_postgres_stats {ρ : Type} (cfg : PgConfig) (df : List ρ)
    (writeOk : Bool) : List DbAction × Except Err Unit :=
  if !pgComplete cfg then ([], Except.error Err.configError)
  else if df.isEmpty then ([], Except.ok ())
  else if writeOk then
    ([DbAction.createEngine, DbAction.writeTable "player_stats",
      DbAction.disposeEngine], Except.ok ())
  else
    ([DbAction.createEngine, DbAction.writeTable "player_stats",
      DbAction.disposeEngine], Except.error Err.loadError)

/-- Function `upload_to_postgres` of 01_FPL_raw_teams.py: credential check, empty-frame
error, then engine creation and write; the engine is never disposed. -/
def upload_to_postgres_teams {ρ : Type} (cfg : PgConfig) (df : List ρ)
    (writeOk : Bool) : List DbAction × Except Err Unit :=
  if !pgComplete cfg then ([], Except.error Err.configError)
  else if df.isEmpty then ([], Except.error Err.dataError)
  else if writeOk then
    ([DbAction.createEngine, DbAction.writeTable "teams_info"], Except.ok ())
  else
    ([DbAction.createEngine, DbAction.writeTable "teams_info"],
      Except.error Err.loadError)

/-- Function `upload_to_postgres` of 02_FPL_raw_players.py: the environment variables
are read but never validated, so the control flow does not depend on `cfg`;
the engine is never disposed. -/
def upload_to_postgres_players {ρ : Type} (_cfg : PgConfig) (df : List ρ)
    (writeOk : Bool) : List DbAction × Except Err Unit :=
  if df.isEmpty then ([], Except.error Err.dataError)
  else if writeOk then
    ([DbAction.createEngine, DbAction.writeTable "players_info"], Except.ok ())
  else
    ([DbAction.createEngine, DbAction.writeTable "players_info"],
      Except.error Err.loadError)

/-- Function `upload_to_postgres` of 03_FPL_raw_game_week.py: same shape as the players
loader — no credential validation, no disposal. -/
def upload_to_postgres_gameweek {ρ : Type} (_cfg : PgConfig) (df : List ρ)
    (writeOk : Bool) : List DbAction × Except Err Unit :=
  if df.isEmpty then ([], Except.error Err.dataError)
  else if writeOk then
    ([DbAction.createEngine, DbAction.writeTable "games_info"], Except.ok ())
  else
    ([DbAction.createEngine, DbAction.writeTable "games_info"],
      Except.error Err.loadError)

/-- Function `load_data_to_mysql` of 10_FctTeamHistory.py: credential check, empty-frame
error (before any truncation), truncate, append, and `dispose()` only after
a fully successful append. `truncateOk`/`writeOk` inject store failures. -/
def load_data_to_mysql {ρ : Type} (cfg : MyConfig) (df : List ρ)
    (table_name : String) (truncateOk writeOk : Bool) :
    List DbAction × Except Err Unit :=
  if !myComplete cfg then ([], Except.error Err.configError)
  else if df.isEmpty then ([], Except.error Err.dataError)
  else if !truncateOk then
    ([DbAction.createEngine, DbAction.truncateTable table_name],
      Except.error Err.loadError)
  else if !writeOk then
    ([DbAction.createEngine, DbAction.truncateTable table_name,
      DbAction.writeTable table_name], Except.error Err.loadError)
  else
    ([DbAction.createEngine, DbAction.truncateTable table_name,
      DbAction.writeTable table_name, DbAction.disposeEngine], Except.ok ())

/-! ## Bootstrap payload, date derivation (01_FPL_raw_teams.py,
02_FPL_raw_players.py) -/

/-- One element of the bootstrap `events` collection; `deadline_time` is
nullable. -/
structure Event where
  deadline_time : Option String
deriving DecidableEq

/-- One element of the bootstrap `teams` collection (the projected fields). -/
structure TeamJson where
  id : Int
  code : Int
  name : String
  short_name : String
deriving DecidableEq

/-- One element of the bootstrap `elements` collection (the projected
fields). -/
structure PlayerJson where
  id : Int
  first_name : String
  second_name : String
  web_name : String
  team_code : Int
  team : Int
  element_type : Int
  code : Int
  region : Option Int
  can_select : Bool
deriving DecidableEq

/-- The bootstrap payload dict: a `none` field models an absent key (an empty
dict therefore has every field `none`). -/
structure Bootstrap where
  events : List Event
  teams : Option (List TeamJson)
  elements : Option (List PlayerJson)
deriving DecidableEq

/-- Unicode code points of a string, the key on which Python compares
strings. -/
def strKey (s : String) : List Nat := s.data.map Char.toNat

/-- Python's lexicographic `<` on code-point lists. -/
def lexLt : List Nat → List Nat → Bool
  | [], [] => false
  | [], _ :: _ => true
  | _ :: _, [] => false
  | a :: as, b :: bs => if a < b then true else if b < a then false else lexLt as bs

/-- Python `s < t` on strings. -/
def pyStrLt (s t : String) : Bool := lexLt (strKey s) (strKey t)

/-- Python `min(x :: xs)`: fold keeping the smaller element. -/
def foldMinStr (xs : List String) (cur : String) : String :=
  xs.foldl (fun m s => if pyStrLt s m then s else m) cur

/-- Python `max(x :: xs)`: fold keeping the larger element. -/
def foldMaxStr (xs : List String) (cur : String) : String :=
  xs.foldl (fun m s => if pyStrLt m s then s else m) cur

/-- The date-collection loop of `pull_data_from_api`: append
`event.get('deadline_time')` when truthy (neither `None` nor `""`). -/
def collectDates (events : List Event) : List String :=
  events.foldl (fun acc e =>
    match e.deadline_time with
    | some s => if s = "" then acc else acc ++ [s]
    | none => acc) []

/-- The derivation step of `pull_data_from_api` in the teams and players jobs:
collect truthy deadline times, raise if none, else return
`(min(dates), max(dates))`. -/
def derive_dates (events : List Event) : Except Err (String × String) :=
  match collectDates events with
  | [] => Except.error Err.dataError
  | x :: xs => Except.ok (foldMinStr xs x, foldMaxStr xs x)

/-- Spec-side list of all non-null deadline_time values of the events (used to
state C7 as written). -/
def nonNullDeadlines (events : List Event) : List String :=
  events.filterMap (fun e => e.deadline_time)

/-- Spec-side list of all non-null, non-empty deadline_time values (the set the
code actually aggregates). -/
def nonEmptyDeadlines (events : List Event) : List String :=
  events.filterMap (fun e =>
    match e.deadline_time with
    | some s => if s = "" then none else some s
    | none => none)

/-- The dict `{"data": data, "min_date": min_date, "max_date": max_date}`
returned by `pull_data_from_api` and consumed by `create_data_frame`. -/
structure RawBundle where
  data : Bootstrap
  min_date : String
  max_date : String
deriving DecidableEq

/-! ## Transformers -/

/-- A row of the teams table after projection, renaming and the season-bound
columns. -/
structure TeamRow where
  team_id : Int
  team_code : Int
  team_name : String
  team_short_name : String
  min_kickoff : String
  max_kickoff : String
deriving DecidableEq

/-- Function `create_data_frame` of the teams job: `not data or "teams" not in data`
(equivalently: no `teams` key, since an empty dict has no keys) raises, else
project, rename, and attach the season bounds to every row. -/
def create_data_frame_teams (raw : RawBundle) : Except Err (List TeamRow) :=
  match raw.data.teams with
  | none => Except.error Err.schemaError
  | some ts => Except.ok (ts.map fun t =>
      { team_id := t.id
        team_code := t.code
        team_name := t.name
        team_short_name := t.short_name
        min_kickoff := raw.min_date
        max_kickoff := raw.max_date })

/-- A teams row with the derived `logo_url` column. -/
structure TeamRowL extends TeamRow where
  logo_url : String
deriving DecidableEq

/-- The base URL interpolated with the team code in `add_photo_url`. -/
def teamBadgeBase : String :=
  "https://resources.premierleague.com/premierleague/badges/t"

/-- The hardcoded Liverpool override URL in `add_photo_url`. -/
def liverpoolUrl : String :=
  "https://upload.wikimedia.org/wikipedia/en/thumb/0/0c/Liverpool_FC.svg/180px-Liverpool_FC.svg.png"

/-- Function `add_photo_url(df)`: first `df['logo_url'] = f"{base_url}{code}.png"` for
every row, then `df.loc[df['team_name'] == 'Liverpool', 'logo_url'] = ...`. -/
def add_photo_url (rows : List TeamRow) : List TeamRowL :=
  let withUrl := rows.map fun r =>
    ({ toTeamRow := r,
       logo_url := teamBadgeBase ++ toString r.team_code ++ ".png" } : TeamRowL)
  withUrl.map fun r =>
    if r.team_name = "Liverpool" then { r with logo_url := liverpoolUrl } else r

/-- A row of the players table after projection, renaming and the season-bound
columns. -/
structure PlayerRow where
  player_id : Int
  first_name : String
  second_name : String
  web_name : String
  team_code : Int
  team_id : Int
  player_position : Int
  player_code : Int
  region : Option Int
  can_select : Bool
  min_kickoff : String
  max_kickoff : String
deriving DecidableEq

/-- Function `create_data_frame` of the players job: `not data or "elements" not in
data` raises, else project, rename, and attach the season bounds. -/
def create_data_frame_players (raw : RawBundle) : Except Err (List PlayerRow) :=
  match raw.data.elements with
  | none => Except.error Err.schemaError
  | some es => Except.ok (es.map fun p =>
      { player_id := p.id
        first_name := p.first_name
        second_name := p.second_name
        web_name := p.web_name
        team_code := p.team_code
        team_id := p.team
        player_position := p.element_type
        player_code := p.code
        region := p.region
        can_select := p.can_select
        min_kickoff := raw.min_date
        max_kickoff := raw.max_date })

/-- A fixture object of the fixtures endpoint (the projected fields), with
`Option` for nullable values. -/
structure FixtureJson where
  code : Option Int
  event : Option Int
  finished : Option Bool
  id : Option Int
  kickoff_time : Option String
  team_a : Option Int
  team_h : Option Int
  team_a_score : Option Int
  team_h_score : Option Int
  team_a_difficulty : Option Int
  team_h_difficulty : Option Int
deriving DecidableEq

/-- A row of the games table after projection, renaming, temporal coercion and
`fillna(0)` (missing numerics default to zero; the timestamp parse is modelled
as keeping the string). -/
structure GameRow where
  game_code : Int
  game_week_id : Int
  finished : Bool
  game_id : Int
  kickoff_time : Option String
  team_id_a : Int
  team_id_h : Int
  team_a_score : Int
  team_h_score : Int
  difficulty_a : Int
  difficulty_h : Int
deriving DecidableEq

/-- Function `create_data_frame` of the game-week job: `not data` raises on an empty
fixture list, else project, rename and zero-fill. -/
def create_data_frame_fixtures (data : List FixtureJson) :
    Except Err (List GameRow) :=
  if data = [] then Except.error Err.schemaError
  else Except.ok (data.map fun f =>
    { game_code := f.code.getD 0
      game_week_id := f.event.getD 0
      finished := f.finished.getD false
      game_id := f.id.getD 0
      kickoff_time := f.kickoff_time
      team_id_a := f.team_a.getD 0
      team_id_h := f.team_h.getD 0
      team_a_score := f.team_a_score.getD 0
      team_h_score := f.team_h_score.getD 0
      difficulty_a := f.team_a_difficulty.getD 0
      difficulty_h := f.team_h_difficulty.getD 0 })

/-! ## Column-level view of the transformers (for the schema claims) -/

/-- Renaming `df.rename(columns=mapping)`: a column keeps its name unless the mapping
lists it. -/
def renameWith (m : List (String × String)) (c : String) : String :=
  match m.find? (fun p => p.1 = c) with
  | some p => p.2
  | none => c

/-- The projection list of the teams transformer. -/
def teamsSelectedColumns : List String := ["id", "code", "name", "short_name"]

/-- The rename mapping of the teams transformer. -/
def teamsRenameMap : List (String × String) :=
  [("id", "team_id"), ("code", "team_code"), ("name", "team_name"),
   ("short_name", "team_short_name")]

/-- Columns of the teams table after projection, renaming, the season-bound
columns and the derived `logo_url`. -/
def teamsTransformColumns : List String :=
  teamsSelectedColumns.map (renameWith teamsRenameMap)
    ++ ["min_kickoff", "max_kickoff"] ++ ["logo_url"]

/-- The projection list of the players transformer. -/
def playersSelectedColumns : List String :=
  ["id", "first_name", "second_name", "web_name", "team_code",
   "team", "element_type", "code", "region", "can_select"]

/-- The rename mapping of the players transformer. -/
def playersRenameMap : List (String × String) :=
  [("id", "player_id"), ("element_type", "player_position"),
   ("team", "team_id"), ("code", "player_code")]

/-- Columns of the players table after projection, renaming, the season-bound
columns and the derived `photo_url`. -/
def playersTransformColumns : List String :=
  playersSelectedColumns.map (renameWith playersRenameMap)
    ++ ["min_kickoff", "max_kickoff"] ++ ["photo_url"]

/-- The projection list of the game-week transformer. -/
def fixturesSelectedColumns : List String :=
  ["code", "event", "finished", "id", "kickoff_time", "team_a", "team_h",
   "team_a_score", "team_h_score", "team_a_difficulty", "team_h_difficulty"]

/-- The rename mapping of the game-week transformer. -/
def fixturesRenameMap : List (String × String) :=
  [("code", "game_code"), ("event", "game_week_id"), ("id", "game_id"),
   ("team_a", "team_id_a"), ("team_h", "team_id_h"),
   ("team_a_difficulty", "difficulty_a"), ("team_h_difficulty", "difficulty_h")]

/-- Columns of the games table after projection and renaming (no derived
columns in this job). -/
def fixturesTransformColumns : List String :=
  fixturesSelectedColumns.map (renameWith fixturesRenameMap)

/-! ## Concrete sample data used to instantiate the theorems -/

/-- A complete PostgreSQL configuration. -/
def fullPgConfig : PgConfig :=
  { dbname := some "warehouse", user := some "etl", password := some "pw",
    host := some "localhost", port := some "5432" }

/-- A PostgreSQL configuration with the password missing. -/
def noPasswordPgConfig : PgConfig :=
  { dbname := some "warehouse", user := some "etl", password := none,
    host := some "localhost", port := some "5432" }

/-- A complete MySQL configuration. -/
def fullMyConfig : MyConfig :=
  { ghost := some "mysql-host", gport := some "3306", gdbname := some "gold",
    guser := some "etl", gpassword := some "pw" }

/-- The single fixture of the spec's stats scenario: a `goals_scored` block
with one home entry `{"element": 10, "value": 1}` and no away entries. -/
def scenarioFixture : Fixture :=
  { code := some 2444470
    id := some 7
    finished := some true
    stats := [{ identifier := "goals_scored", a := [],
                h := [{ element := some 10, value := some 1 }] }] }

/-- The single row the spec's stats scenario expects. -/
def scenarioStatRow : StatRow :=
  { game_code := some 2444470
    finished := some true
    game_id := some 7
    stat_value := some 1
    player_id := some 10
    team_type := Side.h
    stat_type := "goals_scored" }

/-- A fixture with no statistic blocks at all (every per-statistic extraction
is empty). -/
def bareFixture : Fixture :=
  { code := some 1, id := some 2, finished := some false, stats := [] }

/-- A fixture whose only statistic block carries an identifier outside the
catalogue: every per-statistic extraction is empty although entries exist. -/
def offCatalogueFixture : Fixture :=
  { code := some 5
    id := some 6
    finished := some false
    stats := [{ identifier := "defensive_contribution",
                a := [{ element := some 3, value := some 12 }], h := [] }] }

/-- The Liverpool team row of the spec's end-to-end scenario. -/
def lfcTeamRow : TeamRow :=
  { team_id := 1, team_code := 3, team_name := "Liverpool",
    team_short_name := "LIV", min_kickoff := "2024-08-01T00:00:00Z",
    max_kickoff := "2024-08-10T00:00:00Z" }

/-- The Liverpool output row carrying the hardcoded override URL. -/
def lfcTeamRowL : TeamRowL :=
  { toTeamRow := lfcTeamRow, logo_url := liverpoolUrl }

/-- A sample non-Liverpool team row. -/
def arsTeamRow : TeamRow :=
  { team_id := 2, team_code := 3, team_name := "Arsenal",
    team_short_name := "ARS", min_kickoff := "2024-08-01T00:00:00Z",
    max_kickoff := "2024-08-10T00:00:00Z" }

/-- A sample loaded teams row used to drive the loaders. -/
def arsTeamRowL : TeamRowL :=
  { toTeamRow := arsTeamRow, logo_url := teamBadgeBase ++ "3.png" }

/-- A sample transformed players row used to drive the players loader. -/
def samplePlayerRow : PlayerRow :=
  { player_id := 10, first_name := "Mo", second_name := "Salah",
    web_name := "M.Salah", team_code := 14, team_id := 12,
    player_position := 3, player_code := 118748, region := none,
    can_select := true, min_kickoff := "2024-08-01T00:00:00Z",
    max_kickoff := "2024-08-10T00:00:00Z" }

/-- A sample transformed games row used to drive the game-week loader. -/
def sampleGameRow : GameRow :=
  { game_code := 2444470, game_week_id := 1, finished := true, game_id := 7,
    kickoff_time := some "2024-08-16T19:00:00Z", team_id_a := 1, team_id_h := 2,
    team_a_score := 0, team_h_score := 2, difficulty_a := 4, difficulty_h := 2 }

/-- The two events of the spec's end-to-end scenario. -/
def scenarioEvents : List Event :=
  [{ deadline_time := some "2024-08-01T00:00:00Z" },
   { deadline_time := some "2024-08-10T00:00:00Z" }]

/-- An event collection whose only deadline_time is the empty string:
non-null, yet falsy in Python. -/
def emptyStringEvents : List Event := [{ deadline_time := some "" }]

/-- The empty bootstrap payload (an empty dict: no keys at all). -/
def emptyBootstrap : Bootstrap := { events := [], teams := none, elements := none }

/-- A raw bundle wrapping the empty payload. -/
def emptyRawBundle : RawBundle :=
  { data := emptyBootstrap, min_date := "2024-08-01T00:00:00Z",
    max_date := "2024-08-10T00:00:00Z" }

/-! ## Lemmas about the stats aggregation loops -/

lemma entryLoop_eq (f : Fixture) (t : Side) (es : List StatEntry)
    (acc : List RawRow) :
    entryLoop f t es acc = acc ++ es.map (fun e => mkRawRow f e t) := by
  induction es generalizing acc with
  | nil => simp [entryLoop]
  | cons e es ih =>
    simp only [entryLoop, List.foldl_cons] at ih ⊢
    rw [ih]
    simp

lemma sideLoop_eq (f : Fixture) (st : StatBlock) (acc : List RawRow) :
    sideLoop f st acc = acc ++ blockRows f st := by
  simp [sideLoop, entryLoop_eq, blockRows, List.append_assoc]

lemma statFold_eq (ident : String) (f : Fixture) (bs : List StatBlock)
    (acc : List RawRow) :
    bs.foldl (fun a st => if st.identifier = ident then sideLoop f st a else a) acc
      = acc ++ (bs.filter fun b => b.identifier = ident).flatMap (blockRows f) := by
  induction bs generalizing acc with
  | nil => simp
  | cons b bs ih =>
    simp only [List.foldl_cons]
    by_cases h : b.identifier = ident
    · rw [if_pos h, sideLoop_eq, ih]
      simp [List.filter_cons, h, List.append_assoc]
    · rw [if_neg h, ih]
      simp [List.filter_cons, h]

lemma statLoop_eq (ident : String) (f : Fixture) (acc : List RawRow) :
    statLoop ident f acc = acc ++ fixtureStatRows ident f :=
  statFold_eq ident f f.stats acc

lemma extractFold_eq (ident : String) (data : List Fixture) (acc : List RawRow) :
    data.foldl (fun a f => statLoop ident f a) acc
      = acc ++ data.flatMap (fixtureStatRows ident) := by
  induction data generalizing acc with
  | nil => simp
  | cons f fs ih =>
    simp only [List.foldl_cons]
    rw [statLoop_eq, ih]
    simp [List.append_assoc]

lemma extractLoop_eq (ident : String) (data : List Fixture) :
    extractLoop ident data = data.flatMap (fixtureStatRows ident) := by
  simpa [extractLoop] using extractFold_eq ident data []

lemma map_flatMap_eq {α β γ : Type} (l : List α) (g : α → List β) (h : β → γ) :
    (l.flatMap g).map h = l.flatMap fun x => (g x).map h := by
  induction l with
  | nil => rfl
  | cons a as ih => simp [ih]

lemma joinLoop_eq (d : List Fixture) (hd : d ≠ []) (l : List String) :
    joinLoop d l
      = Except.ok (l.flatMap fun s => (extractLoop s d).map (addStatType s)) := by
  induction l with
  | nil => simp [joinLoop]
  | cons s rest ih =>
    simp only [joinLoop, extract_stats, if_neg hd, ih]
    by_cases h : extractLoop s d = []
    · simp [h]
    · simp [h]

lemma join_ok_of_all_empty (data : List Fixture) (hd : data ≠ [])
    (hex : ∀ s ∈ stats_list, extractLoop s data = []) :
    join_dataframes (some data) = Except.ok ([] : List StatRow) := by
  simp only [join_dataframes, if_neg hd, joinLoop_eq data hd]
  congr 1
  rw [List.flatMap_eq_nil_iff]
  intro s hs
  simp [hex s hs]

/-! ## Claim theorems: stats aggregation (C1, C2, C10) -/

/-- C1: for every non-empty fixture list, the aggregator emits exactly one row
per (fixture, catalogue statistic, side, entry) combination present in the
source, carrying the fixture's code, id and finished flag, the side, the
statistic name, the player identifier and the numeric value; statistics absent
from a fixture contribute zero rows. -/
theorem stats_rows_per_combination (data : List Fixture) (hd : data ≠ []) :
    join_dataframes (some data) = Except.ok (specStatRows data) := by
  simp only [join_dataframes, if_neg hd, joinLoop_eq data hd]
  congr 1
  simp only [specStatRows, extractLoop_eq, fixtureStatRows, blockRows,
    map_flatMap_eq, List.map_map]
  rfl

/-- C1 witness: the spec scenario fixture with a `goals_scored` block
`{"h": [{"element": 10, "value": 1}], "a": []}` yields exactly the single row
(side h, player 10, goals_scored, value 1). -/
theorem stats_rows_per_combination_witness :
    join_dataframes (some [scenarioFixture]) = Except.ok [scenarioStatRow] := by
  have h := stats_rows_per_combination [scenarioFixture] (by decide)
  rw [h]
  decide

/-- C2: when every per-statistic extraction of a non-empty fixture list is
empty, the aggregator returns an explicitly empty table without raising, and
the stats loader (under a complete configuration) treats the empty table as a
skip: no database action and no error. -/
theorem stats_empty_aggregation_skips (data : List Fixture) (cfg : PgConfig)
    (w : Bool) (hd : data ≠ [])
    (hex : ∀ s ∈ stats_list, extract_stats data s = Except.ok [])
    (hcfg : pgComplete cfg = true) :
    join_dataframes (some data) = Except.ok ([] : List StatRow)
      ∧ upload_to_postgres_stats cfg ([] : List StatRow) w
          = ([], Except.ok ()) := by
  constructor
  · refine join_ok_of_all_empty data hd ?_
    intro s hs
    have h := hex s hs
    simpa [extract_stats, if_neg hd] using h
  · simp [upload_to_postgres_stats, hcfg]

/-- C2 witness: a one-fixture list with no stat blocks aggregates to the empty
table and the loader skips. -/
theorem stats_empty_aggregation_skips_witness :
    join_dataframes (some [bareFixture]) = Except.ok ([] : List StatRow)
      ∧ upload_to_postgres_stats fullPgConfig ([] : List StatRow) true
          = ([], Except.ok ()) :=
  stats_empty_aggregation_skips [bareFixture] fullPgConfig true
    (by decide) (by decide) (by decide)

/-- C10: the aggregator raises (rather than returning an empty result) when
the fixture list is `None` or empty; the non-fatal empty result arises only
when at least one fixture exists but no per-statistic extraction yields
rows. -/
theorem aggregator_rejects_empty_input :
    join_dataframes none = Except.error Err.dataError
      ∧ join_dataframes (some ([] : List Fixture)) = Except.error Err.dataError
      ∧ ∀ data : List Fixture, data ≠ [] →
          (∀ s ∈ stats_list, extract_stats data s = Except.ok []) →
          join_dataframes (some data) = Except.ok ([] : List StatRow) := by
  refine ⟨rfl, rfl, ?_⟩
  intro data hd hex
  refine join_ok_of_all_empty data hd ?_
  intro s hs
  have h := hex s hs
  simpa [extract_stats, if_neg hd] using h

/-- C10 witness: instantiating the non-fatal-skip part at a one-fixture list
whose only statistic block is outside the catalogue. -/
theorem aggregator_rejects_empty_input_witness :
    join_dataframes (some [offCatalogueFixture]) = Except.ok ([] : List StatRow) :=
  aggregator_rejects_empty_input.2.2 [offCatalogueFixture] (by decide) (by decide)

/-! ## Claim theorems: loader credential checks and connection lifecycle
(C3, C4, C5) -/

/-- C3 counterexample: the players loader, handed a configuration with no
password and a non-empty table, raises no ConfigError at all — it proceeds
straight to the engine creation and database write. -/
theorem players_loader_skips_credential_check :
    pgComplete noPasswordPgConfig = false
      ∧ upload_to_postgres_players noPasswordPgConfig [samplePlayerRow] true
          = ([DbAction.createEngine, DbAction.writeTable "players_info"],
             Except.ok ()) := by
  decide

/-- C3 amended: the teams, stats and replication loaders fail with ConfigError
before any database action when a credential is missing; the players and
game-week loaders read the credentials but never validate them, so their
behaviour does not depend on the configuration at all. -/
theorem credential_check_coverage :
    (∀ (ρ : Type) (cfg : PgConfig) (df : List ρ) (w : Bool),
        pgComplete cfg = false →
        upload_to_postgres_teams cfg df w = ([], Except.error Err.configError))
  ∧ (∀ (ρ : Type) (cfg : PgConfig) (df : List ρ) (w : Bool),
        pgComplete cfg = false →
        upload_to_postgres_stats cfg df w = ([], Except.error Err.configError))
  ∧ (∀ (ρ : Type) (cfg : MyConfig) (df : List ρ) (tn : String) (t w : Bool),
        myComplete cfg = false →
        load_data_to_mysql cfg df tn t w = ([], Except.error Err.configError))
  ∧ (∀ (ρ : Type) (cfg cfg' : PgConfig) (df : List ρ) (w : Bool),
        upload_to_postgres_players cfg df w = upload_to_postgres_players cfg' df w)
  ∧ (∀ (ρ : Type) (cfg cfg' : PgConfig) (df : List ρ) (w : Bool),
        upload_to_postgres_gameweek cfg df w
          = upload_to_postgres_gameweek cfg' df w) := by
  refine ⟨?_, ?_, ?_, ?_, ?_⟩
  · intro ρ cfg df w h
    simp [upload_to_postgres_teams, h]
  · intro ρ cfg df w h
    simp [upload_to_postgres_stats, h]
  · intro ρ cfg df tn t w h
    simp [load_data_to_mysql, h]
  · intro ρ cfg cfg' df w
    rfl
  · intro ρ cfg cfg' df w
    rfl

/-- C3 amended witness: the teams loader rejects the password-less
configuration before any database action, while the players loader behaves
identically under the password-less and the complete configuration. -/
theorem credential_check_coverage_witness :
    upload_to_postgres_teams noPasswordPgConfig [arsTeamRowL] true
        = ([], Except.error Err.configError)
      ∧ upload_to_postgres_players noPasswordPgConfig [samplePlayerRow] true
          = upload_to_postgres_players fullPgConfig [samplePlayerRow] true :=
  ⟨credential_check_coverage.1 TeamRowL noPasswordPgConfig [arsTeamRowL] true
      (by decide),
   credential_check_coverage.2.2.2.1 PlayerRow noPasswordPgConfig fullPgConfig
      [samplePlayerRow] true⟩

/-- C4 counterexample: the teams loader acquires an engine and exits
successfully without ever disposing it. -/
theorem teams_loader_never_disposes :
    upload_to_postgres_teams fullPgConfig [arsTeamRowL] true
        = ([DbAction.createEngine, DbAction.writeTable "teams_info"],
           Except.ok ())
      ∧ DbAction.disposeEngine
          ∉ [DbAction.createEngine, DbAction.writeTable "teams_info"] := by
  decide

/-- C4 amended: only the stats loader disposes its engine on every path on
which one was created (its try/finally); the teams, players and game-week
loaders never dispose an engine, and the replication loader disposes only on
the fully successful path. -/
theorem engine_disposal_coverage :
    (∀ (ρ : Type) (cfg : PgConfig) (df : List ρ) (w : Bool),
        DbAction.createEngine ∈ (upload_to_postgres_stats cfg df w).1 →
        DbAction.disposeEngine ∈ (upload_to_postgres_stats cfg df w).1)
  ∧ (∀ (ρ : Type) (cfg : PgConfig) (df : List ρ) (w : Bool),
        DbAction.disposeEngine ∉ (upload_to_postgres_teams cfg df w).1
        ∧ DbAction.disposeEngine ∉ (upload_to_postgres_players cfg df w).1
        ∧ DbAction.disposeEngine ∉ (upload_to_postgres_gameweek cfg df w).1)
  ∧ (∀ (ρ : Type) (cfg : MyConfig) (df : List ρ) (tn : String) (t w : Bool),
        DbAction.disposeEngine ∈ (load_data_to_mysql cfg df tn t w).1
          ↔ (load_data_to_mysql cfg df tn t w).2 = Except.ok ()) := by
  refine ⟨?_, ?_, ?_⟩
  · intro ρ cfg df w
    unfold upload_to_postgres_stats
    split_ifs <;> simp
  · intro ρ cfg df w
    unfold upload_to_postgres_teams upload_to_postgres_players
      upload_to_postgres_gameweek
    split_ifs <;> simp
  · intro ρ cfg df tn t w
    unfold load_data_to_mysql
    split_ifs <;> simp

/-- C4 amended witness: the stats loader disposes on a failing write, and the
replication loader does not dispose on a failing append. -/
theorem engine_disposal_coverage_witness :
    DbAction.disposeEngine
        ∈ (upload_to_postgres_stats fullPgConfig [scenarioStatRow] false).1
      ∧ DbAction.disposeEngine
          ∉ (load_data_to_mysql fullMyConfig [arsTeamRow] "FctTeamHistory"
              true false).1 := by
  constructor
  · exact engine_disposal_coverage.1 StatRow fullPgConfig [scenarioStatRow]
      false (by decide)
  · intro hmem
    have h := (engine_disposal_coverage.2.2 TeamRow fullMyConfig [arsTeamRow]
      "FctTeamHistory" true false).mp hmem
    revert h
    decide

/-- C5 counterexample: under a complete configuration, the replication loader
given an empty source table raises a DataError before any database action —
the destination is never truncated, so the load is not a no-op that leaves the
table truncated and empty. -/
theorem mysql_empty_source_raises :
    load_data_to_mysql fullMyConfig ([] : List TeamRow) "FctTeamHistory"
        true true
      = ([], Except.error Err.dataError) := by
  decide

/-- C5 amended: in truncate-then-append mode an empty source table is rejected
with a DataError before the truncation step, leaving the destination
untouched (no truncate, no append), for every complete configuration. -/
theorem mysql_empty_source_errors (ρ : Type) (cfg : MyConfig) (tn : String)
    (t w : Bool) (hcfg : myComplete cfg = true) :
    load_data_to_mysql cfg ([] : List ρ) tn t w
      = ([], Except.error Err.dataError) := by
  simp [load_data_to_mysql, hcfg]

/-- C5 amended witness: instantiated at the replication job's concrete table
name and a complete configuration. -/
theorem mysql_empty_source_errors_witness :
    load_data_to_mysql fullMyConfig ([] : List GameRow) "FctTeamHistory"
        true true
      = ([], Except.error Err.dataError) :=
  mysql_empty_source_errors GameRow fullMyConfig "FctTeamHistory" true true
    (by decide)

/-! ## Claim theorems: logo URL derivation and transformer schemas
(C6, C8, C9) -/

/-- C6: every row produced by `add_photo_url` carries the badge base URL
interpolated with its team code followed by ".png", except that a row named
"Liverpool" carries the hardcoded literal URL regardless of its code. -/
theorem logo_url_formula (rows : List TeamRow) (r : TeamRowL)
    (hr : r ∈ add_photo_url rows) :
    r.logo_url = if r.team_name = "Liverpool" then liverpoolUrl
      else teamBadgeBase ++ toString r.team_code ++ ".png" := by
  simp only [add_photo_url, List.mem_map] at hr
  obtain ⟨x, ⟨r0, hr0, rfl⟩, rfl⟩ := hr
  by_cases h : r0.team_name = "Liverpool"
  · simp [h]
  · simp [h]

/-- C6 witness: the spec's Liverpool row (code 3) comes out with the literal
override URL. -/
theorem logo_url_formula_witness :
    lfcTeamRowL ∈ add_photo_url [lfcTeamRow]
      ∧ lfcTeamRowL.logo_url = liverpoolUrl := by
  have hmem : lfcTeamRowL ∈ add_photo_url [lfcTeamRow] := by decide
  have h := logo_url_formula [lfcTeamRow] lfcTeamRowL hmem
  refine ⟨hmem, ?_⟩
  rw [h]
  decide

/-- C8: each transformer fails with a SchemaError when its expected top-level
key is absent (equivalently, when the payload structure is empty, since an
empty dict has no keys), and the game-week transformer fails on an empty
fixture list. -/
theorem transformer_schema_guard :
    (∀ raw : RawBundle, raw.data.teams = none →
        create_data_frame_teams raw = Except.error Err.schemaError)
  ∧ (∀ raw : RawBundle, raw.data.elements = none →
        create_data_frame_players raw = Except.error Err.schemaError)
  ∧ (∀ data : List FixtureJson, data = [] →
        create_data_frame_fixtures data = Except.error Err.schemaError) := by
  refine ⟨?_, ?_, ?_⟩
  · intro raw h
    simp [create_data_frame_teams, h]
  · intro raw h
    simp [create_data_frame_players, h]
  · intro data h
    simp [create_data_frame_fixtures, h]

/-- C8 witness: the empty payload is rejected by all three transformers. -/
theorem transformer_schema_guard_witness :
    create_data_frame_teams emptyRawBundle = Except.error Err.schemaError
      ∧ create_data_frame_players emptyRawBundle = Except.error Err.schemaError
      ∧ create_data_frame_fixtures ([] : List FixtureJson)
          = Except.error Err.schemaError :=
  ⟨transformer_schema_guard.1 emptyRawBundle rfl,
   transformer_schema_guard.2.1 emptyRawBundle rfl,
   transformer_schema_guard.2.2 [] rfl⟩

/-- C9: the three transformers' column sets, obtained by applying each job's
rename mapping to its projection list and appending the derived columns, are
exactly the canonical sets, and no renamed-away source column name
survives. -/
theorem transformer_column_sets :
    teamsTransformColumns
        = ["team_id", "team_code", "team_name", "team_short_name",
           "min_kickoff", "max_kickoff", "logo_url"]
      ∧ playersTransformColumns
        = ["player_id", "first_name", "second_name", "web_name", "team_code",
           "team_id", "player_position", "player_code", "region", "can_select",
           "min_kickoff", "max_kickoff", "photo_url"]
      ∧ fixturesTransformColumns
        = ["game_code", "game_week_id", "finished", "game_id", "kickoff_time",
           "team_id_a", "team_id_h", "team_a_score", "team_h_score",
           "difficulty_a", "difficulty_h"]
      ∧ "id" ∉ teamsTransformColumns
      ∧ "name" ∉ teamsTransformColumns
      ∧ "short_name" ∉ teamsTransformColumns
      ∧ "id" ∉ playersTransformColumns
      ∧ "element_type" ∉ playersTransformColumns
      ∧ "team" ∉ playersTransformColumns
      ∧ "code" ∉ playersTransformColumns
      ∧ "code" ∉ fixturesTransformColumns
      ∧ "event" ∉ fixturesTransformColumns
      ∧ "id" ∉ fixturesTransformColumns
      ∧ "team_a" ∉ fixturesTransformColumns
      ∧ "team_h" ∉ fixturesTransformColumns
      ∧ "team_a_difficulty" ∉ fixturesTransformColumns
      ∧ "team_h_difficulty" ∉ fixturesTransformColumns := by
  decide

/-! ## Lemmas about Python string comparison and min/max folds (for C7) -/

lemma lexLt_irrefl : ∀ l : List Nat, lexLt l l = false
  | [] => rfl
  | a :: as => by simp [lexLt, lexLt_irrefl as]

lemma lexLt_trans : ∀ a b c : List Nat,
    lexLt a b = true → lexLt b c = true → lexLt a c = true := by
  intro a
  induction a with
  | nil =>
    intro b c h1 h2
    cases b with
    | nil => simp [lexLt] at h1
    | cons y ys =>
      cases c with
      | nil => simp [lexLt] at h2
      | cons z zs => simp [lexLt]
  | cons x xs ih =>
    intro b c h1 h2
    cases b with
    | nil => simp [lexLt] at h1
    | cons y ys =>
      cases c with
      | nil => simp [lexLt] at h2
      | cons z zs =>
        simp only [lexLt] at h1 h2 ⊢
        by_cases hxy : x < y
        · by_cases hyz : y < z
          · simp [show x < z from lt_trans hxy hyz]
          · by_cases hzy : z < y
            · simp [hyz, hzy] at h2
            · have hyz' : y = z := by omega
              subst hyz'
              simp [hxy]
        · by_cases hyx : y < x
          · simp [hxy, hyx] at h1
          · have hxy' : x = y := by omega
            subst hxy'
            by_cases hxz : x < z
            · simp [hxz]
            · by_cases hzx : z < x
              · simp [hxz, hzx] at h2
              · have hxz' : x = z := by omega
                subst hxz'
                simp only [lt_self_iff_false, if_false] at h1 h2 ⊢
                exact ih ys zs h1 h2

lemma lexLt_false_trans : ∀ a b c : List Nat,
    lexLt a b = false → lexLt b c = false → lexLt a c = false := by
  intro a
  induction a with
  | nil =>
    intro b c h1 h2
    cases b with
    | cons y ys => simp [lexLt] at h1
    | nil =>
      cases c with
      | cons z zs => simp [lexLt] at h2
      | nil => rfl
  | cons x xs ih =>
    intro b c h1 h2
    cases c with
    | nil => simp [lexLt]
    | cons z zs =>
      cases b with
      | nil => simp [lexLt] at h2
      | cons y ys =>
        simp only [lexLt] at h1 h2 ⊢
        by_cases hxy : x < y
        · simp [hxy] at h1
        · by_cases hyz : y < z
          · simp [hyz] at h2
          · by_cases hyx : y < x
            · by_cases hzy : z < y
              · have hzx : z < x := lt_trans hzy hyx
                simp [show ¬ x < z by omega, hzx]
              · have hyz' : y = z := by omega
                subst hyz'
                simp [show ¬ x < y by omega, hyx]
            · have hxy' : x = y := by omega
              subst hxy'
              by_cases hzx : z < x
              · simp [show ¬ x < z by omega, hzx]
              · have hxz' : x = z := by omega
                subst hxz'
                simp only [lt_self_iff_false, if_false] at h1 h2 ⊢
                exact ih ys zs h1 h2

lemma pyStrLt_irrefl (s : String) : pyStrLt s s = false :=
  lexLt_irrefl (strKey s)

lemma pyStrLt_trans {a b c : String} (h1 : pyStrLt a b = true)
    (h2 : pyStrLt b c = true) : pyStrLt a c = true :=
  lexLt_trans (strKey a) (strKey b) (strKey c) h1 h2

lemma pyStrLt_false_trans {a b c : String} (h1 : pyStrLt a b = false)
    (h2 : pyStrLt b c = false) : pyStrLt a c = false :=
  lexLt_false_trans (strKey a) (strKey b) (strKey c) h1 h2

lemma foldMinStr_spec (xs : List String) (cur : String) :
    foldMinStr xs cur ∈ cur :: xs
      ∧ ∀ y ∈ cur :: xs, pyStrLt y (foldMinStr xs cur) = false := by
  induction xs generalizing cur with
  | nil =>
    refine ⟨List.mem_singleton.mpr rfl, ?_⟩
    intro y hy
    rw [List.mem_singleton] at hy
    subst hy
    simp [foldMinStr, pyStrLt_irrefl]
  | cons s xs ih =>
    have hstep : foldMinStr (s :: xs) cur
        = foldMinStr xs (if pyStrLt s cur then s else cur) := by
      simp [foldMinStr]
    by_cases h : pyStrLt s cur = true
    · rw [hstep, if_pos h]
      obtain ⟨hmem, hall⟩ := ih s
      refine ⟨List.mem_cons_of_mem cur hmem, ?_⟩
      intro y hy
      rcases List.mem_cons.mp hy with hyc | hy'
      · rw [hyc]
        cases hb : pyStrLt cur (foldMinStr xs s) with
        | false => rfl
        | true =>
          exact absurd (pyStrLt_trans h hb)
            (by simp [hall s (List.mem_cons_self s xs)])
      · exact hall y hy'
    · have h' : pyStrLt s cur = false := by
        cases hb : pyStrLt s cur
        · rfl
        · exact absurd hb h
      rw [hstep, if_neg h]
      obtain ⟨hmem, hall⟩ := ih cur
      constructor
      · rcases List.mem_cons.mp hmem with hc | hx
        · exact List.mem_cons.mpr (Or.inl hc)
        · exact List.mem_cons_of_mem cur (List.mem_cons_of_mem s hx)
      · intro y hy
        rcases List.mem_cons.mp hy with hyc | hy'
        · rw [hyc]
          exact hall cur (List.mem_cons_self cur xs)
        · rcases List.mem_cons.mp hy' with hys | hyx
          · rw [hys]
            exact pyStrLt_false_trans h' (hall cur (List.mem_cons_self cur xs))
          · exact hall y (List.mem_cons_of_mem cur hyx)

lemma foldMaxStr_spec (xs : List String) (cur : String) :
    foldMaxStr xs cur ∈ cur :: xs
      ∧ ∀ y ∈ cur :: xs, pyStrLt (foldMaxStr xs cur) y = false := by
  induction xs generalizing cur with
  | nil =>
    refine ⟨List.mem_singleton.mpr rfl, ?_⟩
    intro y hy
    rw [List.mem_singleton] at hy
    subst hy
    simp [foldMaxStr, pyStrLt_irrefl]
  | cons s xs ih =>
    have hstep : foldMaxStr (s :: xs) cur
        = foldMaxStr xs (if pyStrLt cur s then s else cur) := by
      simp [foldMaxStr]
    by_cases h : pyStrLt cur s = true
    · rw [hstep, if_pos h]
      obtain ⟨hmem, hall⟩ := ih s
      refine ⟨List.mem_cons_of_mem cur hmem, ?_⟩
      intro y hy
      rcases List.mem_cons.mp hy with hyc | hy'
      · rw [hyc]
        cases hb : pyStrLt (foldMaxStr xs s) cur with
        | false => rfl
        | true =>
          exact absurd (pyStrLt_trans hb h)
            (by simp [hall s (List.mem_cons_self s xs)])
      · exact hall y hy'
    · have h' : pyStrLt cur s = false := by
        cases hb : pyStrLt cur s
        · rfl
        · exact absurd hb h
      rw [hstep, if_neg h]
      obtain ⟨hmem, hall⟩ := ih cur
      constructor
      · rcases List.mem_cons.mp hmem with hc | hx
        · exact List.mem_cons.mpr (Or.inl hc)
        · exact List.mem_cons_of_mem cur (List.mem_cons_of_mem s hx)
      · intro y hy
        rcases List.mem_cons.mp hy with hyc | hy'
        · rw [hyc]
          exact hall cur (List.mem_cons_self cur xs)
        · rcases List.mem_cons.mp hy' with hys | hyx
          · rw [hys]
            exact pyStrLt_false_trans (hall cur (List.mem_cons_self cur xs)) h'
          · exact hall y (List.mem_cons_of_mem cur hyx)

lemma collect_fold (events : List Event) (acc : List String) :
    events.foldl (fun acc e =>
      match e.deadline_time with
      | some s => if s = "" then acc else acc ++ [s]
      | none => acc) acc = acc ++ nonEmptyDeadlines events := by
  induction events generalizing acc with
  | nil => simp [nonEmptyDeadlines]
  | cons e es ih =>
    simp only [List.foldl_cons]
    cases hdt : e.deadline_time with
    | none => simp [hdt, ih, nonEmptyDeadlines, List.filterMap_cons]
    | some s =>
      by_cases hs : s = ""
      · simp [hdt, hs, ih, nonEmptyDeadlines, List.filterMap_cons]
      · simp [hdt, hs, ih, nonEmptyDeadlines, List.filterMap_cons]

lemma collectDates_eq (events : List Event) :
    collectDates events = nonEmptyDeadlines events := by
  simpa [collectDates] using collect_fold events []

/-! ## Claim theorems: deadline date bounds (C7) -/

/-- C7 counterexample: an event whose deadline_time is the empty string is
non-null, yet the fetcher's derivation raises a DataError instead of
returning that value as both bounds — Python truthiness drops the empty
string. -/
theorem deadline_nonnull_empty_string_mismatch :
    nonNullDeadlines emptyStringEvents ≠ []
      ∧ derive_dates emptyStringEvents = Except.error Err.dataError := by
  decide

/-- C7 amended: min_date and max_date are the minimum and maximum (in
Python's lexicographic string order) of all non-null, non-empty deadline_time
values of the events, and the fetcher fails with a DataError exactly when no
non-null, non-empty deadline_time exists. -/
theorem derive_dates_min_max (events : List Event) :
    (nonEmptyDeadlines events = [] →
        derive_dates events = Except.error Err.dataError)
  ∧ (∀ mn mx, derive_dates events = Except.ok (mn, mx) →
        mn ∈ nonEmptyDeadlines events ∧ mx ∈ nonEmptyDeadlines events
        ∧ ∀ x ∈ nonEmptyDeadlines events,
            pyStrLt x mn = false ∧ pyStrLt mx x = false)
  ∧ (nonEmptyDeadlines events ≠ [] →
        ∃ mn mx, derive_dates events = Except.ok (mn, mx)) := by
  have hc : collectDates events = nonEmptyDeadlines events :=
    collectDates_eq events
  refine ⟨?_, ?_, ?_⟩
  · intro h
    unfold derive_dates
    rw [hc, h]
  · intro mn mx hok
    unfold derive_dates at hok
    rw [hc] at hok
    cases hne : nonEmptyDeadlines events with
    | nil =>
      rw [hne] at hok
      exact absurd hok (by simp)
    | cons x xs =>
      rw [hne] at hok
      simp only [Except.ok.injEq, Prod.mk.injEq] at hok
      obtain ⟨hmn, hmx⟩ := hok
      subst hmn
      subst hmx
      obtain ⟨hm1, hm2⟩ := foldMinStr_spec xs x
      obtain ⟨hx1, hx2⟩ := foldMaxStr_spec xs x
      exact ⟨hm1, hx1, fun y hy => ⟨hm2 y hy, hx2 y hy⟩⟩
  · intro h
    cases hne : nonEmptyDeadlines events with
    | nil => exact absurd hne h
    | cons x xs =>
      refine ⟨foldMinStr xs x, foldMaxStr xs x, ?_⟩
      unfold derive_dates
      rw [hc, hne]

/-- C7 amended witness: the spec's two-event scenario yields the earlier date
as min_date and the later as max_date, both members of the non-empty deadline
collection. -/
theorem derive_dates_min_max_witness :
    derive_dates scenarioEvents
        = Except.ok ("2024-08-01T00:00:00Z", "2024-08-10T00:00:00Z")
      ∧ "2024-08-01T00:00:00Z" ∈ nonEmptyDeadlines scenarioEvents
      ∧ "2024-08-10T00:00:00Z" ∈ nonEmptyDeadlines scenarioEvents := by
  have hok : derive_dates scenarioEvents
      = Except.ok ("2024-08-01T00:00:00Z", "2024-08-10T00:00:00Z") := by
    decide
  have h := (derive_dates_min_max scenarioEvents).2.1 _ _ hok
  exact ⟨hok, h.1, h.2.1⟩

end FPL
